import Mathlib

/-
Verification of the CTF event lifecycle of the ctfbot repository.

The development is a shallow embedding of the relevant Python code:

* src/src/bot/cogs/ctf_management.py  (announce_ctf, settime_ctf,
  on_raw_reaction_add, on_raw_reaction_remove, cleanup_ended_ctfs,
  _cleanup_ctf_event)
* src/src/bot/utils/helpers.py        (send_message_safely)
* src/src/bot/db/database.py          (module attributes; fetch_one query)

The six CTF database functions imported by ctf_management.py
(create_ctf_events_table_if_not_exists, deactivate_ctf_event, get_ctf_event,
get_ctf_events_to_end, insert_ctf_event, update_ctf_event) are not defined in
src/src/bot/db/database.py; definitions for them below are modelled from the
spec (section 4.1 "Event Store") and are marked as such in their doc comments.

The embedding restricts text to ASCII characters: Python str.isalnum and the
\d character class of strptime are Unicode aware, but every claim, every
counterexample and every message in this code base is ASCII, where the Python
functions agree with the ASCII models used here.  Machine integers
(discord ids) are modelled as Nat; none of the verified code overflows or
wraps.  Discord gateway calls and their failures are modelled by explicit
oracles (records of booleans saying which external call fails), mirroring the
try/except structure of the source.
-/

namespace CtfBot

/-- One row of the `ctf_events` table, in the column order assumed by the
tuple unpacking in `_cleanup_ctf_event` (ctf_management.py lines 362-373)
and by the positional access `ctf_data[3]` in the reaction handlers:
`(id, name, guild_id, role_id, text_channel_id, voice_channel_id,
announcement_message_id, end_time, is_active, created_at)`. -/
structure CtfEvent where
  id : Nat
  name : String
  guildId : Nat
  roleId : Option Nat
  textChannelId : Option Nat
  voiceChannelId : Option Nat
  announcementMessageId : Option Nat
  endTime : Option String
  isActive : Bool
  createdAt : Nat
deriving DecidableEq

/-- Byte-wise comparison of character lists, the binary collation SQLite uses
to compare TEXT values such as the stored ISO end-time strings. -/
def charListLe : List Char → List Char → Bool
  | [], _ => true
  | _ :: _, [] => false
  | a :: as, b :: bs =>
    if a < b then true
    else if b < a then false
    else charListLe as bs

/-- String comparison under binary collation, used by the expiry query. -/
def strLe (a b : String) : Bool := charListLe a.data b.data

/-- Modelled from the spec: `get(name, guildId)` of the Event Store contract
(spec section 4.1); stands in for the `get_ctf_event` function that
ctf_management.py imports from the database module but database.py does not
define.  Returns the unique active row for `(name, guildId)` or none. -/
def get_ctf_event (name : String) (guildId : Nat) : List CtfEvent → Option CtfEvent
  | [] => none
  | e :: rest =>
    if e.name == name && e.guildId == guildId && e.isActive then some e
    else get_ctf_event name guildId rest

/-- Modelled from the spec: `insert(event)` of the Event Store contract (spec
section 4.1); stands in for the missing `insert_ctf_event`.  Appends an
active row carrying the ids created by announce; announce never passes an
end time, so the new row has none. -/
def insert_ctf_event (name : String) (guildId roleId textChannelId voiceChannelId announcementMessageId : Nat) (store : List CtfEvent) : List CtfEvent :=
  store ++ [{ id := store.length + 1
            , name := name
            , guildId := guildId
            , roleId := some roleId
            , textChannelId := some textChannelId
            , voiceChannelId := some voiceChannelId
            , announcementMessageId := some announcementMessageId
            , endTime := none
            , isActive := true
            , createdAt := 0 }]

/-- Modelled from the spec: `update(name, guildId, partialFields)` of the
Event Store contract (spec section 4.1), restricted to the only field
settime_ctf ever updates; stands in for the missing `update_ctf_event`.
Merges the end time into the matching active row. -/
def update_ctf_event (name : String) (guildId : Nat) (endTime : String) (store : List CtfEvent) : List CtfEvent :=
  store.map (fun e =>
    if e.name == name && e.guildId == guildId && e.isActive then
      { e with endTime := some endTime }
    else e)

/-- Modelled from the spec: `deactivate(name, guildId)` of the Event Store
contract (spec section 4.1); stands in for the missing
`deactivate_ctf_event`.  Sets `isActive` to false on the matching active
row. -/
def deactivate_ctf_event (name : String) (guildId : Nat) (store : List CtfEvent) : List CtfEvent :=
  store.map (fun e =>
    if e.name == name && e.guildId == guildId && e.isActive then
      { e with isActive := false }
    else e)

/-- Modelled from the spec: `listExpired(now)` of the Event Store contract
(spec section 4.1); stands in for the missing `get_ctf_events_to_end`.
Returns all active rows whose end time is at most `now` (rows with no end
time never expire); end times are compared as stored TEXT under binary
collation. -/
def get_ctf_events_to_end (now : String) (store : List CtfEvent) : List CtfEvent :=
  store.filter (fun e =>
    e.isActive && (match e.endTime with
                   | some t => strLe t now
                   | none => false))

/-- The query `SELECT * FROM ctf_events WHERE announcement_message_id = ?
AND guild_id = ? AND is_active = 1` run through `fetch_one` (which is
defined in database.py) by both reaction handlers
(ctf_management.py lines 250-253 and 306-309). -/
def fetch_one_ctf_announcement (messageId guildId : Nat) : List CtfEvent → Option CtfEvent
  | [] => none
  | e :: rest =>
    if e.announcementMessageId == some messageId && e.guildId == guildId && e.isActive then
      some e
    else fetch_one_ctf_announcement messageId guildId rest

/-- ASCII alphanumeric test for one character. -/
def isAlnumCharA (c : Char) : Bool := c.isAlpha || c.isDigit

/-- Characters surviving `name.replace("_", "").replace("-", "")`. -/
def notUnderscoreHyphen (c : Char) : Bool := !(c == '_') && !(c == '-')

/-- Model of `name.replace("_", "").replace("-", "")`
(ctf_management.py line 64). -/
def stripUnderscoreHyphen (l : List Char) : List Char :=
  l.filter notUnderscoreHyphen

/-- ASCII model of Python `str.isalnum`: the string is nonempty and every
character is alphanumeric. -/
def pyIsAlnumChars (l : List Char) : Bool :=
  !l.isEmpty && l.all isAlnumCharA

/-- The name test of announce_ctf (ctf_management.py line 64):
`name.replace("_", "").replace("-", "").isalnum()`. -/
def validCtfName (name : String) : Bool :=
  pyIsAlnumChars (stripUnderscoreHyphen name.data)

/-- Stated from the words of the spec and of claim C3, for comparison with
`validCtfName`: the name consists solely of letters, digits, underscores and
hyphens. -/
def specAllowedName (name : String) : Bool :=
  name.data.all (fun c => isAlnumCharA c || c == '_' || c == '-')

/-- The name contains at least one letter or digit. -/
def hasAlnumChar (name : String) : Bool :=
  name.data.any isAlnumCharA

/-- A naive (timezone free) Python datetime value as produced by
`datetime.strptime`; the code attaches UTC to it unchanged
(ctf_management.py lines 190-191). -/
structure PyDateTime where
  year : Nat
  month : Nat
  day : Nat
  hour : Nat
  minute : Nat
  second : Nat
deriving DecidableEq

/-- One directive of a strptime format string after the preprocessing
CPython _strptime applies to it: numeric directives, a literal character
(the compiled regex carries IGNORECASE, so a cased literal such as T also
matches its other case), and `ws` for a whitespace run (CPython replaces
each whitespace run in the format with the regex `\s+` before compiling). -/
inductive FmtTok where
  | Y
  | m
  | d
  | H
  | M
  | S
  | lit (c : Char)
  | ws
deriving DecidableEq

/-- ASCII characters matched by the regex class `\s`. -/
def isPyWS (c : Char) : Bool :=
  c == ' ' || c == '\t' || c == '\n' || c == '\x0b' || c == '\x0c' || c == '\r'

/-- Drop a run of whitespace characters (the rest of what `\s+` consumes
after its first character; the run is maximal, which coincides with the
greedy regex because every following format element matches digits or
punctuation, never whitespace). -/
def dropWS : List Char → List Char
  | [] => []
  | c :: rest => if isPyWS c then dropWS rest else c :: rest

/-- Case-insensitive match of one literal format character against one
input character, as compiling the format regex with IGNORECASE gives
(ASCII case folding; punctuation is unaffected). -/
def litMatches (x c : Char) : Bool :=
  x == c || x.toLower == c.toLower

/-- Numeric value of an ASCII digit character. -/
def digitVal (c : Char) : Nat := c.toNat - '0'.toNat

/-- Two-digit alternatives of the CPython _strptime field patterns:
percent-m is `1[0-2]|0[1-9]`, percent-d is `3[01]|[12]\d|0[1-9]`, percent-H
is `2[0-3]|[0-1]\d`, percent-M is `[0-5]\d`, percent-S is `6[0-1]|[0-5]\d`
(values are the two digit values). -/
def field2Ok : FmtTok → Nat → Nat → Bool
  | .m, a, b => decide ((a = 1 ∧ b ≤ 2) ∨ (a = 0 ∧ 1 ≤ b))
  | .d, a, b => decide ((a = 3 ∧ b ≤ 1) ∨ a = 1 ∨ a = 2 ∨ (a = 0 ∧ 1 ≤ b))
  | .H, a, b => decide ((a = 2 ∧ b ≤ 3) ∨ a ≤ 1)
  | .M, a, _ => decide (a ≤ 5)
  | .S, a, b => decide ((a = 6 ∧ b ≤ 1) ∨ a ≤ 5)
  | _, _, _ => false

/-- One-digit alternatives of the same patterns: percent-m and percent-d
end in `[1-9]`, percent-H, percent-M and percent-S end in `\d`. -/
def field1Ok : FmtTok → Nat → Bool
  | .m, a => decide (1 ≤ a)
  | .d, a => decide (1 ≤ a)
  | .H, _ => true
  | .M, _ => true
  | .S, _ => true
  | _, _ => false

/-- Match one numeric strptime directive against the input.  Percent-Y is
exactly four digits; the other fields take two digits when the next two
characters are digits matching a two-digit alternative, else one digit
matching a one-digit alternative.  Because in the three formats used by
settime_ctf every directive is followed by a non-digit literal or by the
end of the input, this greedy rule coincides with the backtracking regex
matching CPython _strptime performs. -/
def parseNumField : FmtTok → List Char → Option (Nat × List Char)
  | .Y, a :: b :: c :: d :: rest =>
    if a.isDigit && b.isDigit && c.isDigit && d.isDigit then
      some (digitVal a * 1000 + digitVal b * 100 + digitVal c * 10 + digitVal d, rest)
    else none
  | .Y, _ => none
  | f, a :: b :: rest =>
    if a.isDigit && b.isDigit && field2Ok f (digitVal a) (digitVal b) then
      some (10 * digitVal a + digitVal b, rest)
    else if a.isDigit && field1Ok f (digitVal a) then
      some (digitVal a, b :: rest)
    else none
  | f, [a] =>
    if a.isDigit && field1Ok f (digitVal a) then some (digitVal a, []) else none
  | _, [] => none

/-- Store a matched directive value into the accumulating datetime. -/
def setField : FmtTok → Nat → PyDateTime → PyDateTime
  | .Y, v, t => { t with year := v }
  | .m, v, t => { t with month := v }
  | .d, v, t => { t with day := v }
  | .H, v, t => { t with hour := v }
  | .M, v, t => { t with minute := v }
  | .S, v, t => { t with second := v }
  | .lit _, _, t => t
  | .ws, _, t => t

/-- Run a format over the input; the `[] , [] => some` case is the
full-match length check CPython performs after the regex match.  A literal
matches case-insensitively (the format regex is compiled with IGNORECASE)
and a `ws` token consumes one or more whitespace characters (the `\s+`
CPython substitutes for format whitespace). -/
def parseFields : List FmtTok → List Char → PyDateTime → Option PyDateTime
  | [], [], acc => some acc
  | [], _ :: _, _ => none
  | .lit c :: fs, x :: rest, acc =>
    if litMatches x c then parseFields fs rest acc else none
  | .lit _ :: _, [], _ => none
  | .ws :: fs, x :: rest, acc =>
    if isPyWS x then parseFields fs (dropWS rest) acc else none
  | .ws :: _, [], _ => none
  | f :: fs, cs, acc =>
    match parseNumField f cs with
    | some (v, rest) => parseFields fs rest (setField f v acc)
    | none => none

def isLeapYear (y : Nat) : Bool :=
  (y % 4 == 0 && y % 100 != 0) || y % 400 == 0

def daysInMonth (y m : Nat) : Nat :=
  if m == 2 then (if isLeapYear y then 29 else 28)
  else if m == 4 || m == 6 || m == 9 || m == 11 then 30
  else 31

/-- Range checks of the datetime constructor that the field patterns do not
already guarantee: CPython _strptime feeds the matched values to
`datetime(...)`, which rejects year 0, a day beyond the length of the month
and the leap seconds 60 and 61 that the percent-S pattern admits. -/
def datetimeCtorOk (t : PyDateTime) : Bool :=
  decide (1 ≤ t.year ∧ 1 ≤ t.day ∧ t.day ≤ daysInMonth t.year t.month ∧ t.second ≤ 59)

/-- Model of `datetime.strptime(end_time, fmt)` for the formats used by
settime_ctf, starting from the strptime defaults (year 1900, month 1,
day 1, midnight). -/
def strptime (fmt : List FmtTok) (s : String) : Option PyDateTime :=
  match parseFields fmt s.data ⟨1900, 1, 1, 0, 0, 0⟩ with
  | some t => if datetimeCtorOk t then some t else none
  | none => none

/-- The format `%Y-%m-%dT%H:%M:%S` (ctf_management.py line 186). -/
def fmtIsoTSec : List FmtTok :=
  [.Y, .lit '-', .m, .lit '-', .d, .lit 'T', .H, .lit ':', .M, .lit ':', .S]

/-- The format `%Y-%m-%d %H:%M:%S` (ctf_management.py line 186); the
format space is compiled as `\s+`, hence the `ws` token. -/
def fmtIsoSpaceSec : List FmtTok :=
  [.Y, .lit '-', .m, .lit '-', .d, .ws, .H, .lit ':', .M, .lit ':', .S]

/-- The format `%Y-%m-%dT%H:%M` (ctf_management.py line 186). -/
def fmtIsoTMin : List FmtTok :=
  [.Y, .lit '-', .m, .lit '-', .d, .lit 'T', .H, .lit ':', .M]

/-- The parsing loop of settime_ctf (ctf_management.py lines 186-196): try
the three formats in order, succeed with the first that parses, otherwise
fail (the for-else raises ValueError). -/
def parseEndTime (s : String) : Option PyDateTime :=
  match strptime fmtIsoTSec s with
  | some t => some t
  | none =>
    match strptime fmtIsoSpaceSec s with
    | some t => some t
    | none => strptime fmtIsoTMin s

def pad2 (n : Nat) : String :=
  if n < 10 then "0" ++ toString n else toString n

def pad4 (n : Nat) : String :=
  if n < 10 then "000" ++ toString n
  else if n < 100 then "00" ++ toString n
  else if n < 1000 then "0" ++ toString n
  else toString n

/-- Model of `parsed_time.isoformat()` after `replace(tzinfo=UTC)`
(ctf_management.py lines 190-199): seconds are always printed,
microseconds are always zero here and are omitted, and the UTC offset is
printed as `+00:00`. -/
def pyIsoformatUtc (t : PyDateTime) : String :=
  pad4 t.year ++ "-" ++ pad2 t.month ++ "-" ++ pad2 t.day ++ "T"
    ++ pad2 t.hour ++ ":" ++ pad2 t.minute ++ ":" ++ pad2 t.second ++ "+00:00"

/-- A reply delivered to the invoking user.  `ephemeralText` models
`interaction.response.send_message(..., ephemeral=True)`, `embedMsg` the
announcement embed reply, `plainText` a non-ephemeral text reply. -/
inductive Reply where
  | ephemeralText (msg : String)
  | embedMsg (ctfName : String)
  | plainText (msg : String)
deriving DecidableEq

/-- State of the Discord guild objects announce creates.  `calls` counts
every attempted role or channel creation call (failed attempts included), so
an unchanged `calls` field means no gateway creation call was attempted. -/
structure Gateway where
  roles : List (Nat × String)
  textChannels : List (Nat × String)
  voiceChannels : List (Nat × String)
  calls : Nat
  nextId : Nat
deriving DecidableEq

def Gateway.addRole (gw : Gateway) (name : String) : Gateway :=
  { gw with roles := gw.roles ++ [(gw.nextId, name)]
          , calls := gw.calls + 1
          , nextId := gw.nextId + 1 }

def Gateway.addTextChannel (gw : Gateway) (name : String) : Gateway :=
  { gw with textChannels := gw.textChannels ++ [(gw.nextId, name)]
          , calls := gw.calls + 1
          , nextId := gw.nextId + 1 }

def Gateway.addVoiceChannel (gw : Gateway) (name : String) : Gateway :=
  { gw with voiceChannels := gw.voiceChannels ++ [(gw.nextId, name)]
          , calls := gw.calls + 1
          , nextId := gw.nextId + 1 }

/-- A creation call that the gateway refuses: it counts as an attempt but
creates nothing. -/
def Gateway.refusedCall (gw : Gateway) : Gateway :=
  { gw with calls := gw.calls + 1 }

/-- Which external call of announce_ctf fails, mirroring its try/except
structure: the three creations raise discord.Forbidden, the announcement
reply raises a generic exception before the response is marked done, and
the reaction / insert steps fail after the announcement reply has been
delivered. -/
structure GatewayOracle where
  failCreateRole : Bool
  failCreateText : Bool
  failCreateVoice : Bool
  failSendAnnouncement : Bool
  failAddReaction : Bool
  failInsert : Bool
deriving DecidableEq

def allOkOracle : GatewayOracle := ⟨false, false, false, false, false, false⟩

inductive AnnounceOutcome where
  | success
  | noGuild
  | invalidName
  | alreadyExists
  | permissionDenied
  | gatewayError
  | postReplyError
deriving DecidableEq

structure AnnounceResult where
  outcome : AnnounceOutcome
  store : List CtfEvent
  gw : Gateway
  replies : List Reply
deriving DecidableEq

def serverOnlyMsg : String := "このコマンドはサーバー内でのみ使用できます。"

def invalidNameMsg : String := "CTF名は英数字、アンダースコア、ハイフンのみ使用できます。"

def alreadyExistsMsg (name : String) : String := "CTF " ++ name ++ " は既に存在します。"

def permissionMsg : String := "ロールやチャンネルを作成する権限がありません。"

def createFailedMsg : String := "CTFイベントの作成に失敗しました"

def notFoundMsg (name : String) : String := "CTF " ++ name ++ " が見つかりません。"

def invalidTimeMsg : String := "無効な時間形式です。"

def settimeOkMsg (name : String) : String := "CTF " ++ name ++ " の終了時間を設定しました。"

/-- Model of the announce_ctf command handler (ctf_management.py lines
49-151).  Step order follows the source: guild check (57), name validation
(64), duplicate check (72), role creation (81), text channel creation (94),
voice channel creation (101), announcement reply (126), reaction (130),
database insert (133).  The except handlers reply through
`interaction.response.send_message`, which raises InteractionResponded
without delivering anything once the announcement reply has been sent, so
failures after line 126 leave the embed as the only delivered reply. -/
def announce_ctf (o : GatewayOracle) (store : List CtfEvent) (gw : Gateway)
    (guild : Option Nat) (name : String) : AnnounceResult :=
  match guild with
  | none => ⟨.noGuild, store, gw, [.ephemeralText serverOnlyMsg]⟩
  | some gid =>
    if !validCtfName name then
      ⟨.invalidName, store, gw, [.ephemeralText invalidNameMsg]⟩
    else if (get_ctf_event name gid store).isSome then
      ⟨.alreadyExists, store, gw, [.ephemeralText (alreadyExistsMsg name)]⟩
    else if o.failCreateRole then
      ⟨.permissionDenied, store, gw.refusedCall, [.ephemeralText permissionMsg]⟩
    else
      let roleId := gw.nextId
      let gw1 := gw.addRole name
      if o.failCreateText then
        ⟨.permissionDenied, store, gw1.refusedCall, [.ephemeralText permissionMsg]⟩
      else
        let textId := gw1.nextId
        let gw2 := gw1.addTextChannel name
        if o.failCreateVoice then
          ⟨.permissionDenied, store, gw2.refusedCall, [.ephemeralText permissionMsg]⟩
        else
          let voiceId := gw2.nextId
          let gw3 := gw2.addVoiceChannel name
          if o.failSendAnnouncement then
            ⟨.gatewayError, store, gw3, [.ephemeralText createFailedMsg]⟩
          else
            let messageId := gw3.nextId
            let gw4 := { gw3 with nextId := gw3.nextId + 1 }
            if o.failAddReaction then
              ⟨.postReplyError, store, gw4, [.embedMsg name]⟩
            else if o.failInsert then
              ⟨.postReplyError, store, gw4, [.embedMsg name]⟩
            else
              ⟨.success,
               insert_ctf_event name gid roleId textId voiceId messageId store,
               gw4, [.embedMsg name]⟩

inductive SettimeOutcome where
  | ok
  | noGuild
  | notFound
  | invalidTimeFormat
deriving DecidableEq

structure SettimeResult where
  outcome : SettimeOutcome
  store : List CtfEvent
  replies : List Reply
deriving DecidableEq

/-- Model of the settime_ctf command handler (ctf_management.py lines
158-225): guild check (169), existence check (176), format loop (186-196),
update and confirmation (202-210), or the InvalidTimeFormat reply (215)
leaving the store untouched. -/
def settime_ctf (store : List CtfEvent) (guild : Option Nat)
    (name : String) (end_time : String) : SettimeResult :=
  match guild with
  | none => ⟨.noGuild, store, [.ephemeralText serverOnlyMsg]⟩
  | some gid =>
    if (get_ctf_event name gid store).isNone then
      ⟨.notFound, store, [.ephemeralText (notFoundMsg name)]⟩
    else
      match parseEndTime end_time with
      | none => ⟨.invalidTimeFormat, store, [.ephemeralText invalidTimeMsg]⟩
      | some t =>
        ⟨.ok, update_ctf_event name gid (pyIsoformatUtc t) store,
         [.plainText (settimeOkMsg name)]⟩

/-- A raw reaction event payload, as consumed by the two listeners. -/
structure ReactionPayload where
  userId : Nat
  messageId : Nat
  guildId : Nat
  emoji : String
deriving DecidableEq

/-- External state the reaction handlers consult: the bot identity, whether
`bot.get_guild`, `guild.get_role` and `guild.get_member` resolve, and
whether the role change or the direct message raises discord.Forbidden. -/
structure ReactionEnv where
  botUserId : Nat
  guildExists : Bool
  roleFound : Bool
  memberFound : Bool
  addRoleFails : Bool
  removeRoleFails : Bool
  dmFails : Bool
deriving DecidableEq

/-- Externally visible effects of a reaction handler.  Failures inside the
handlers are only logged; no `errorReply` is ever produced by them. -/
inductive UserAction where
  | roleAdded (roleId userId : Nat)
  | roleRemoved (roleId userId : Nat)
  | dmSent (userId : Nat)
  | errorReply (msg : String)
deriving DecidableEq

/-- Model of `guild.get_role(ctf_data[3])`: the stored role id may be NULL,
and the role may no longer exist in the guild. -/
def lookupRole (env : ReactionEnv) (roleId : Option Nat) : Option Nat :=
  match roleId with
  | none => none
  | some r => if env.roleFound then some r else none

/-- Model of `guild.get_member(payload.user_id)`. -/
def lookupMember (env : ReactionEnv) (userId : Nat) : Option Nat :=
  if env.memberFound then some userId else none

/-- Model of the on_raw_reaction_add listener (ctf_management.py lines
228-285): ignore the bot itself (236), ignore non-flag emoji (240), ignore
unknown guilds (243), resolve the announcement row (250), bail out silently
when row, role or member is missing, then add the role and send a
best-effort direct message, swallowing every failure. -/
def on_raw_reaction_add (env : ReactionEnv) (store : List CtfEvent)
    (p : ReactionPayload) : List UserAction :=
  if p.userId == env.botUserId then []
  else if !(p.emoji == "🚩") then []
  else if !env.guildExists then []
  else
    match fetch_one_ctf_announcement p.messageId p.guildId store with
    | none => []
    | some ev =>
      match lookupRole env ev.roleId, lookupMember env p.userId with
      | some rid, some uid =>
        if env.addRoleFails then []
        else [.roleAdded rid uid] ++ (if env.dmFails then [] else [.dmSent uid])
      | _, _ => []

/-- Model of the on_raw_reaction_remove listener (ctf_management.py lines
288-331): same resolution chain as the add listener but with no check of
the acting user against the bot identity, and no direct message. -/
def on_raw_reaction_remove (env : ReactionEnv) (store : List CtfEvent)
    (p : ReactionPayload) : List UserAction :=
  if !(p.emoji == "🚩") then []
  else if !env.guildExists then []
  else
    match fetch_one_ctf_announcement p.messageId p.guildId store with
    | none => []
    | some ev =>
      match lookupRole env ev.roleId, lookupMember env p.userId with
      | some rid, some uid =>
        if env.removeRoleFails then [] else [.roleRemoved rid uid]
      | _, _ => []

/-- Python truthiness of a nullable integer column, as tested by
`if role_id:` and the channel id tests in _cleanup_ctf_event. -/
def truthyId : Option Nat → Bool
  | none => false
  | some n => n != 0

/-- External state one cleanup pass consults, together with which teardown
call raises (raises are caught by the per-step try/except blocks). -/
structure CleanupEnv where
  guildExists : Bool
  roleFound : Bool
  textChannelFound : Bool
  voiceChannelFound : Bool
  roleDeleteFails : Bool
  textEditFails : Bool
  archiveFound : Bool
  archiveCreateFails : Bool
  voiceDeleteFails : Bool
deriving DecidableEq

def healthyCleanupEnv : CleanupEnv :=
  ⟨true, true, true, true, false, false, true, false, false⟩

/-- Teardown effects of one cleanup pass. -/
inductive CleanupAction where
  | roleDeleted
  | textChannelEdited
  | archiveCreated
  | textChannelArchived
  | voiceChannelDeleted
deriving DecidableEq

structure CleanupResult where
  store : List CtfEvent
  deactivateReached : Bool
  actions : List CleanupAction
deriving DecidableEq

/-- Model of _cleanup_ctf_event (ctf_management.py lines 353-481).  A
missing guild deactivates immediately (375-379).  The role deletion
(382-391), the text channel edit and archive move (394-444) and the voice
channel deletion (447-460) each sit in their own try/except and cannot
abort the pass.  The closing notice (463-474), however, calls
`send_message_safely(text_channel, embed=embed)` while helpers.py defines
`send_message_safely(channel, content)`; the call raises TypeError, the
notice block has no try/except of its own, so the outer handler (480-481)
catches the error and the `deactivate_ctf_event` call on line 477 is never
reached whenever the text channel still exists. -/
def cleanup_ctf_event (env : CleanupEnv) (store : List CtfEvent)
    (ev : CtfEvent) : CleanupResult :=
  if !env.guildExists then
    ⟨deactivate_ctf_event ev.name ev.guildId store, true, []⟩
  else
    let roleActions : List CleanupAction :=
      if truthyId ev.roleId && env.roleFound && !env.roleDeleteFails then
        [.roleDeleted]
      else []
    let textActions : List CleanupAction :=
      if truthyId ev.textChannelId && env.textChannelFound then
        if env.textEditFails then []
        else
          [.textChannelEdited] ++
            (if env.archiveFound then [.textChannelArchived]
             else if env.archiveCreateFails then []
             else [.archiveCreated, .textChannelArchived])
      else []
    let voiceActions : List CleanupAction :=
      if truthyId ev.voiceChannelId && env.voiceChannelFound && !env.voiceDeleteFails then
        [.voiceChannelDeleted]
      else []
    let actions := roleActions ++ textActions ++ voiceActions
    if truthyId ev.textChannelId && env.textChannelFound then
      ⟨store, false, actions⟩
    else
      ⟨deactivate_ctf_event ev.name ev.guildId store, true, actions⟩

/-- Model of one tick of the cleanup_ended_ctfs task (ctf_management.py
lines 334-346): fetch the expired events and run the per-event pass on each
in turn. -/
def cleanup_ended_ctfs (env : CleanupEnv) (now : String)
    (store : List CtfEvent) : List CtfEvent :=
  (get_ctf_events_to_end now store).foldl
    (fun st ev => (cleanup_ctf_event env st ev).store) store

/-- The global names bound in src/src/bot/db/database.py: its fifteen
function definitions followed by its module-level imports.  A
`from ..db.database import X` succeeds exactly when X is among them. -/
def databaseModuleAttrs : List String :=
  [ "get_db_connection"
  , "execute_query"
  , "fetch_all"
  , "fetch_one"
  , "create_alpacahack_user_table_if_not_exists"
  , "insert_alpacahack_user"
  , "delete_alpacahack_user"
  , "get_all_alpacahack_users"
  , "create_sleep_records_table_if_not_exists"
  , "calculate_sleep_duration"
  , "insert_sleep_record"
  , "get_sleep_record"
  , "get_sleep_records_by_period"
  , "delete_sleep_record"
  , "get_sleep_statistics"
  , "sqlite3"
  , "Generator"
  , "contextmanager"
  , "Any"
  , "DATABASE_NAME"
  , "datetime"
  , "timedelta"
  , "Optional" ]

/-- The names ctf_management.py imports from the database module
(lines 13-20). -/
def ctfManagementDbImports : List String :=
  [ "create_ctf_events_table_if_not_exists"
  , "deactivate_ctf_event"
  , "get_ctf_event"
  , "get_ctf_events_to_end"
  , "insert_ctf_event"
  , "update_ctf_event" ]

/-- A Python from-import statement succeeds exactly when every imported
name is an attribute of the module; otherwise the importing module fails to
load with ImportError. -/
def pyFromImportOk (moduleAttrs imports : List String) : Bool :=
  imports.all (fun n => moduleAttrs.contains n)

/-- The parameter list of send_message_safely (helpers.py lines 19-21):
exactly `channel` and `content`, both positional-or-keyword, no defaults,
no *args and no **kwargs. -/
def smsParams : List String := ["channel", "content"]

/-- Python call binding for a plain parameter list without defaults:
`posArgs` positional arguments fill the first parameters, every keyword
argument must name a parameter not already filled positionally, and every
parameter must end up filled; any violation raises TypeError at the call. -/
def pyCallBindsOk (params : List String) (posArgs : Nat) (kwArgs : List String) : Bool :=
  decide (posArgs ≤ params.length)
    && kwArgs.all (fun k => params.contains k)
    && kwArgs.all (fun k => !(params.take posArgs).contains k)
    && (params.drop posArgs).all (fun q => kwArgs.contains q)

/-- A gateway with no objects yet. -/
def emptyGateway : Gateway := ⟨[], [], [], 0, 1⟩

/-- A stored CTF event whose end time has passed `sampleNow` and whose
guild, role and channels all still exist. -/
def sampleEvent : CtfEvent :=
  ⟨1, "DEFCON", 1, some 10, some 11, some 12, some 13,
   some "2024-01-01T00:00:00+00:00", true, 0⟩

def sampleNow : String := "2024-06-01T00:00:00+00:00"

/-- A store holding one active event named DEFCON in guild 1 with no end
time. -/
def storeWithDefcon : List CtfEvent :=
  [⟨1, "DEFCON", 1, some 10, some 11, some 12, some 13, none, true, 0⟩]

/-- A reaction environment whose bot user id is 7 and where every lookup
succeeds and no call fails. -/
def reactionEnvBot7 : ReactionEnv := ⟨7, true, true, true, false, false, false⟩

/-- The flag reaction of the bot itself (user id 7) on the announcement
message of `storeWithDefcon`. -/
def botFlagPayload : ReactionPayload := ⟨7, 13, 1, "🚩"⟩

theorem strip_all_eq (l : List Char) :
    (stripUnderscoreHyphen l).all isAlnumCharA
      = l.all (fun c => isAlnumCharA c || c == '_' || c == '-') := by
  induction l with
  | nil => rfl
  | cons c l ih =>
    by_cases h1 : c = '_'
    · subst h1
      simp [stripUnderscoreHyphen, notUnderscoreHyphen, List.filter_cons] at ih ⊢
      simpa [stripUnderscoreHyphen, notUnderscoreHyphen] using ih
    · by_cases h2 : c = '-'
      · subst h2
        simp [stripUnderscoreHyphen, notUnderscoreHyphen, List.filter_cons] at ih ⊢
        simpa [stripUnderscoreHyphen, notUnderscoreHyphen] using ih
      · have hk : notUnderscoreHyphen c = true := by
          simp [notUnderscoreHyphen, h1, h2]
        simp [stripUnderscoreHyphen, List.filter_cons, hk, List.all_cons] at ih ⊢
        rw [ih]
        cases ha : isAlnumCharA c <;> simp [ha, h1, h2]

theorem strip_nonempty_eq (l : List Char) :
    (!(stripUnderscoreHyphen l).isEmpty
       && l.all (fun c => isAlnumCharA c || c == '_' || c == '-'))
      = (l.all (fun c => isAlnumCharA c || c == '_' || c == '-')
           && l.any isAlnumCharA) := by
  induction l with
  | nil => rfl
  | cons c l ih =>
    by_cases h1 : c = '_'
    · subst h1
      simpa [stripUnderscoreHyphen, notUnderscoreHyphen, List.filter_cons,
             isAlnumCharA] using ih
    · by_cases h2 : c = '-'
      · subst h2
        simpa [stripUnderscoreHyphen, notUnderscoreHyphen, List.filter_cons,
               isAlnumCharA] using ih
      · have hk : notUnderscoreHyphen c = true := by
          simp [notUnderscoreHyphen, h1, h2]
        cases ha : isAlnumCharA c <;>
          simp [stripUnderscoreHyphen, List.filter_cons, hk, ha, h1, h2]

/-- The source name check accepts exactly the names made of letters, digits,
underscores and hyphens that contain at least one letter or digit. -/
theorem validCtfName_eq (name : String) :
    validCtfName name = (specAllowedName name && hasAlnumChar name) := by
  unfold validCtfName specAllowedName hasAlnumChar pyIsAlnumChars
  rw [strip_all_eq]
  exact strip_nonempty_eq name.data

theorem get_append_active (name : String) (gid : Nat) (store : List CtfEvent)
    (x : CtfEvent) (hx : (x.name == name && x.guildId == gid && x.isActive) = true) :
    (get_ctf_event name gid (store ++ [x])).isSome = true := by
  induction store with
  | nil => simp [get_ctf_event, hx]
  | cons e store ih =>
    rw [List.cons_append]
    by_cases hp : (e.name == name && e.guildId == gid && e.isActive) = true
    · simp [get_ctf_event, hp]
    · simpa [get_ctf_event, hp] using ih

/-- A row just inserted for `(name, gid)` is found by the active lookup. -/
theorem get_insert_isSome (name : String) (gid a b c d : Nat)
    (store : List CtfEvent) :
    (get_ctf_event name gid (insert_ctf_event name gid a b c d store)).isSome = true := by
  unfold insert_ctf_event
  exact get_append_active name gid store _ (by simp)

/-- Updating the end time of the active `(name, gid)` row commutes with the
active lookup. -/
theorem get_ctf_event_update (name : String) (gid : Nat) (v : String)
    (store : List CtfEvent) :
    get_ctf_event name gid (update_ctf_event name gid v store)
      = (get_ctf_event name gid store).map (fun e => { e with endTime := some v }) := by
  induction store with
  | nil => rfl
  | cons e store ih =>
    unfold update_ctf_event at ih ⊢
    simp only [List.map_cons]
    by_cases hp : (e.name == name && e.guildId == gid && e.isActive) = true
    · rw [if_pos hp]
      simp [get_ctf_event, hp]
    · rw [if_neg hp]
      simpa [get_ctf_event, hp] using ih

theorem parseEndTime_isSome_iff (s : String) :
    (parseEndTime s).isSome = true
      ↔ ((strptime fmtIsoTSec s).isSome = true
          ∨ (strptime fmtIsoSpaceSec s).isSome = true
          ∨ (strptime fmtIsoTMin s).isSome = true) := by
  unfold parseEndTime
  cases h1 : strptime fmtIsoTSec s <;>
    cases h2 : strptime fmtIsoSpaceSec s <;>
      cases h3 : strptime fmtIsoTMin s <;> simp [h1, h2, h3]

/-- A successful announce validated the name and appended the new active
row with the four freshly allocated gateway ids. -/
theorem announce_success_store (o : GatewayOracle) (store : List CtfEvent)
    (gw : Gateway) (gid : Nat) (name : String)
    (h : (announce_ctf o store gw (some gid) name).outcome = AnnounceOutcome.success) :
    validCtfName name = true
    ∧ (announce_ctf o store gw (some gid) name).store
        = insert_ctf_event name gid gw.nextId (gw.nextId + 1) (gw.nextId + 2)
            (gw.nextId + 3) store := by
  simp only [announce_ctf] at h ⊢
  split_ifs at h ⊢ with h1 h2 h3 h4 h5 h6 h7 h8 <;> try simp at h
  exact ⟨by simpa using h1, rfl⟩

/-- C1: the cleanup teardown of an expired event is claimed to reach the
final deactivate call regardless of sub-step failures, leaving the event
inactive and not selected by the next sweep.  The code does not: for an
expired event whose guild and text channel still exist (the normal case,
with every teardown call succeeding), the closing-notice call
`send_message_safely(text_channel, embed=embed)` raises TypeError, the
outer exception handler swallows it before line 477 runs, the store is
left unchanged, the event stays active and the next sweep selects it
again. -/
theorem cleanup_never_reaches_deactivate :
    (cleanup_ctf_event healthyCleanupEnv [sampleEvent] sampleEvent).deactivateReached = false
    ∧ (cleanup_ctf_event healthyCleanupEnv [sampleEvent] sampleEvent).store = [sampleEvent]
    ∧ sampleEvent.isActive = true
    ∧ get_ctf_events_to_end sampleNow [sampleEvent] = [sampleEvent]
    ∧ cleanup_ended_ctfs healthyCleanupEnv sampleNow [sampleEvent] = [sampleEvent]
    ∧ get_ctf_events_to_end sampleNow
        (cleanup_ended_ctfs healthyCleanupEnv sampleNow [sampleEvent]) = [sampleEvent] := by
  decide

/-- C2: ctf_management.py imports six CTF store functions from the database
module, none of which the database module defines, so the from-import
raises ImportError and the cog never loads. -/
theorem ctf_management_import_fails :
    pyFromImportOk databaseModuleAttrs ctfManagementDbImports = false
    ∧ ctfManagementDbImports.all
        (fun n => !(databaseModuleAttrs.contains n)) = true
    ∧ ctfManagementDbImports.length = 6 := by
  decide

/-- C3 counterexample: the claim says announce accepts a name exactly when
it consists solely of letters, digits, underscores and hyphens.  The name
consisting of a single underscore consists solely of such characters, yet
announce rejects it: stripping underscores and hyphens leaves the empty
string, and Python str.isalnum is false on the empty string. -/
theorem underscore_name_rejected :
    specAllowedName "_" = true
    ∧ (announce_ctf allOkOracle [] emptyGateway (some 1) "_").outcome
        = AnnounceOutcome.invalidName := by
  decide

/-- C3 (amended): announce accepts a name if and only if it consists solely
of letters, digits, underscores and hyphens AND contains at least one
letter or digit; any other name is rejected with InvalidName before any
gateway creation call is attempted and without touching the store. -/
theorem announce_name_validation (o : GatewayOracle) (store : List CtfEvent)
    (gw : Gateway) (gid : Nat) (name : String) :
    ((announce_ctf o store gw (some gid) name).outcome = AnnounceOutcome.invalidName
       ↔ (specAllowedName name && hasAlnumChar name) = false)
    ∧ ((announce_ctf o store gw (some gid) name).outcome = AnnounceOutcome.invalidName →
        (announce_ctf o store gw (some gid) name).gw = gw
        ∧ (announce_ctf o store gw (some gid) name).store = store
        ∧ (announce_ctf o store gw (some gid) name).replies
            = [Reply.ephemeralText invalidNameMsg]) := by
  have hv := validCtfName_eq name
  cases h : validCtfName name with
  | false =>
    have hspec : (specAllowedName name && hasAlnumChar name) = false := by
      rw [← hv]; exact h
    constructor
    · simp [announce_ctf, h, hspec]
    · intro _
      refine ⟨?_, ?_, ?_⟩ <;> simp [announce_ctf, h]
  | true =>
    have hspec : (specAllowedName name && hasAlnumChar name) = true := by
      rw [← hv]; exact h
    have hout : (announce_ctf o store gw (some gid) name).outcome
        ≠ AnnounceOutcome.invalidName := by
      simp only [announce_ctf, h]
      split_ifs <;> simp_all
    refine ⟨⟨fun hc => absurd hc hout, fun hc => ?_⟩, fun hc => absurd hc hout⟩
    rw [hspec] at hc
    cases hc

/-- C3 witness: at the concrete name DEF CON! (space and punctuation) the
amended theorem yields rejection with InvalidName and an untouched
gateway. -/
theorem announce_name_validation_holds :
    (announce_ctf allOkOracle [] emptyGateway (some 1) "DEF CON!").outcome
        = AnnounceOutcome.invalidName
    ∧ (announce_ctf allOkOracle [] emptyGateway (some 1) "DEF CON!").gw
        = emptyGateway :=
  ⟨(announce_name_validation allOkOracle [] emptyGateway 1 "DEF CON!").1.mpr (by decide),
   ((announce_name_validation allOkOracle [] emptyGateway 1 "DEF CON!").2
      ((announce_name_validation allOkOracle [] emptyGateway 1 "DEF CON!").1.mpr
        (by decide))).1⟩

/-- C6: on every invocation of announce on which some step fails (the
outcome is not success: no guild, invalid name, duplicate, gateway refusal,
or a failure after the announcement reply was sent), exactly one reply is
delivered to the user. -/
theorem announce_exactly_one_reply (o : GatewayOracle) (store : List CtfEvent)
    (gw : Gateway) (guild : Option Nat) (name : String)
    (h : (announce_ctf o store gw guild name).outcome ≠ AnnounceOutcome.success) :
    (announce_ctf o store gw guild name).replies.length = 1 := by
  clear h
  cases guild with
  | none => rfl
  | some gid =>
    simp only [announce_ctf]
    split_ifs <;> rfl

/-- C6 witness: a concrete failing invocation (no guild) gets exactly one
reply. -/
theorem announce_exactly_one_reply_holds :
    (announce_ctf allOkOracle [] emptyGateway none "x").replies.length = 1 :=
  announce_exactly_one_reply allOkOracle [] emptyGateway none "x" (by decide)

/-- C10: an announce_ctf or settime_ctf invocation carrying no guild gets
exactly one ephemeral error reply, the store is not mutated and no gateway
call is made. -/
theorem no_guild_single_ephemeral_reply (o : GatewayOracle)
    (store : List CtfEvent) (gw : Gateway) (name nm s : String) :
    (announce_ctf o store gw none name).replies
        = [Reply.ephemeralText serverOnlyMsg]
    ∧ (announce_ctf o store gw none name).store = store
    ∧ (announce_ctf o store gw none name).gw = gw
    ∧ (announce_ctf o store gw none name).outcome = AnnounceOutcome.noGuild
    ∧ (settime_ctf store none nm s).replies = [Reply.ephemeralText serverOnlyMsg]
    ∧ (settime_ctf store none nm s).store = store
    ∧ (settime_ctf store none nm s).outcome = SettimeOutcome.noGuild :=
  ⟨rfl, rfl, rfl, rfl, rfl, rfl, rfl⟩

/-- C4: on an active event, settime accepts an end-time string exactly when
one of the three formats parses it (interpreted as UTC); on success the
normalized UTC instant is persisted on the row, and on failure the outcome
is InvalidTimeFormat and the store (hence the previously stored end time)
is unchanged. -/
theorem settime_formats_and_rollback (store : List CtfEvent) (gid : Nat)
    (name s : String) (ev : CtfEvent)
    (hget : get_ctf_event name gid store = some ev) :
    ((settime_ctf store (some gid) name s).outcome = SettimeOutcome.ok
       ↔ ((strptime fmtIsoTSec s).isSome = true
            ∨ (strptime fmtIsoSpaceSec s).isSome = true
            ∨ (strptime fmtIsoTMin s).isSome = true))
    ∧ (∀ t, parseEndTime s = some t →
         get_ctf_event name gid (settime_ctf store (some gid) name s).store
           = some { ev with endTime := some (pyIsoformatUtc t) })
    ∧ (parseEndTime s = none →
         (settime_ctf store (some gid) name s).outcome = SettimeOutcome.invalidTimeFormat
         ∧ (settime_ctf store (some gid) name s).store = store) := by
  have hne : (get_ctf_event name gid store).isNone = false := by rw [hget]; rfl
  have hiff := parseEndTime_isSome_iff s
  cases hp : parseEndTime s with
  | none =>
    rw [hp] at hiff
    simp only [Option.isSome_none, Bool.false_eq_true, false_iff] at hiff
    refine ⟨?_, ?_, ?_⟩
    · simp [settime_ctf, hne, hp, hiff]
    · intro t ht
      cases ht
    · intro _
      constructor <;> simp [settime_ctf, hne, hp]
  | some t0 =>
    rw [hp] at hiff
    simp only [Option.isSome_some, true_iff] at hiff
    refine ⟨?_, ?_, ?_⟩
    · simp [settime_ctf, hne, hp, hiff]
    · intro t ht
      injection ht with ht
      subst ht
      have hstore : (settime_ctf store (some gid) name s).store
          = update_ctf_event name gid (pyIsoformatUtc t0) store := by
        simp [settime_ctf, hne, hp]
      rw [hstore, get_ctf_event_update, hget]
      rfl
    · intro hcontr
      cases hcontr

/-- C4 witness: with an active DEFCON event stored, the unparsable string
not-a-date yields InvalidTimeFormat and leaves the store unchanged. -/
theorem settime_formats_and_rollback_holds :
    (settime_ctf storeWithDefcon (some 1) "DEFCON" "not-a-date").outcome
        = SettimeOutcome.invalidTimeFormat
    ∧ (settime_ctf storeWithDefcon (some 1) "DEFCON" "not-a-date").store
        = storeWithDefcon :=
  (settime_formats_and_rollback storeWithDefcon 1 "DEFCON" "not-a-date"
      ⟨1, "DEFCON", 1, some 10, some 11, some 12, some 13, none, true, 0⟩
      (by decide)).2.2 (by decide)

/-- C5: after a successful announce of a name in a guild, an immediately
following announce of the same name in the same guild fails with
AlreadyExists, creating no new gateway object (the gateway state, including
its call counter, is unchanged) and leaving the store unchanged, so the one
active `(name, guildId)` row stays unique. -/
theorem announce_duplicate_rejected (o o2 : GatewayOracle)
    (store st2 : List CtfEvent) (gw gw2 : Gateway) (gid : Nat) (name : String)
    (h : (announce_ctf o store gw (some gid) name).outcome = AnnounceOutcome.success)
    (hst : (announce_ctf o store gw (some gid) name).store = st2)
    (hgw : (announce_ctf o store gw (some gid) name).gw = gw2) :
    (announce_ctf o2 st2 gw2 (some gid) name).outcome = AnnounceOutcome.alreadyExists
    ∧ (announce_ctf o2 st2 gw2 (some gid) name).store = st2
    ∧ (announce_ctf o2 st2 gw2 (some gid) name).gw = gw2 := by
  obtain ⟨hvalid, hstore⟩ := announce_success_store o store gw gid name h
  have hnv : (!validCtfName name) = false := by rw [hvalid]; rfl
  have hsome : (get_ctf_event name gid st2).isSome = true := by
    rw [← hst, hstore]
    exact get_insert_isSome name gid _ _ _ _ store
  refine ⟨?_, ?_, ?_⟩ <;> simp [announce_ctf, hnv, hsome]

/-- C5 witness: announcing DEFCON twice in guild 1 from an empty store, the
second call returns AlreadyExists. -/
theorem announce_duplicate_rejected_holds :
    (announce_ctf allOkOracle
        (announce_ctf allOkOracle [] emptyGateway (some 1) "DEFCON").store
        (announce_ctf allOkOracle [] emptyGateway (some 1) "DEFCON").gw
        (some 1) "DEFCON").outcome = AnnounceOutcome.alreadyExists :=
  (announce_duplicate_rejected allOkOracle allOkOracle [] _ emptyGateway _ 1
      "DEFCON" (by decide) rfl rfl).1

/-- C7: a reaction-add whose message id resolves to no active announcement
row produces no role grant, no direct message and no user-visible error:
the handler returns silently. -/
theorem reaction_add_unknown_silent (env : ReactionEnv) (store : List CtfEvent)
    (p : ReactionPayload)
    (h : fetch_one_ctf_announcement p.messageId p.guildId store = none) :
    on_raw_reaction_add env store p = [] := by
  simp only [on_raw_reaction_add, h]
  split_ifs <;> rfl

/-- C7 witness: a flag reaction on a message unknown to an empty store
produces no action. -/
theorem reaction_add_unknown_silent_holds :
    on_raw_reaction_add reactionEnvBot7 [] botFlagPayload = [] :=
  reaction_add_unknown_silent reactionEnvBot7 [] botFlagPayload (by decide)

/-- C8: the join handler ignores reaction-adds by the bot itself, while the
leave handler has no such check: a reaction-remove by the bot itself, under
the same resolution conditions as any other actor, proceeds to role
revocation. -/
theorem reaction_bot_check_only_on_add (env : ReactionEnv)
    (store : List CtfEvent) (p : ReactionPayload) (ev : CtfEvent) (rid : Nat)
    (hbot : p.userId = env.botUserId) :
    on_raw_reaction_add env store p = []
    ∧ (p.emoji = "🚩" → env.guildExists = true →
        fetch_one_ctf_announcement p.messageId p.guildId store = some ev →
        ev.roleId = some rid → env.roleFound = true → env.memberFound = true →
        env.removeRoleFails = false →
        on_raw_reaction_remove env store p
          = [UserAction.roleRemoved rid p.userId]) := by
  constructor
  · simp [on_raw_reaction_add, hbot]
  · intro hemoji hguild hfetch hrole hrf hmf hnofail
    simp [on_raw_reaction_remove, hemoji, hguild, hfetch, lookupRole,
          lookupMember, hrole, hrf, hmf, hnofail]

/-- C8 witness: the bot (user id 7) reacting on the DEFCON announcement is
ignored by the add handler, yet its reaction-removal revokes role 10 from
itself. -/
theorem reaction_bot_check_only_on_add_holds :
    on_raw_reaction_add reactionEnvBot7 storeWithDefcon botFlagPayload = []
    ∧ on_raw_reaction_remove reactionEnvBot7 storeWithDefcon botFlagPayload
        = [UserAction.roleRemoved 10 7] := by
  have h := reaction_bot_check_only_on_add reactionEnvBot7 storeWithDefcon
    botFlagPayload ⟨1, "DEFCON", 1, some 10, some 11, some 12, some 13, none, true, 0⟩
    10 rfl
  exact ⟨h.1, h.2 rfl rfl (by decide) rfl rfl rfl rfl⟩

/-- C9: send_message_safely accepts exactly the two parameters channel and
content; every call that passes an embed keyword argument fails to bind
(TypeError before the body runs), in particular the closing-notice call of
the cleanup and the weekly-notification embed call, so no embed message is
ever delivered through this helper; a call passing content binds fine. -/
theorem send_message_safely_embed_calls_fail (pos : Nat) (kwArgs : List String)
    (h : "embed" ∈ kwArgs) :
    pyCallBindsOk smsParams pos kwArgs = false
    ∧ pyCallBindsOk smsParams 1 ["embed"] = false
    ∧ pyCallBindsOk smsParams 1 ["content"] = true := by
  refine ⟨?_, by decide, by decide⟩
  cases hall : kwArgs.all (fun k => smsParams.contains k) with
  | false =>
    unfold pyCallBindsOk
    rw [hall]
    simp only [Bool.false_and, Bool.and_false]
  | true =>
    exfalso
    have hin := List.all_eq_true.mp hall _ h
    exact absurd hin (by decide)

/-- C9 witness: the concrete call shape of ctf_management.py line 474 and
ctftime_notifications.py line 98 (one positional argument plus the keyword
embed) fails to bind. -/
theorem send_message_safely_embed_calls_fail_holds :
    pyCallBindsOk smsParams 1 ["embed"] = false :=
  (send_message_safely_embed_calls_fail 1 ["embed"] (by decide)).1

end CtfBot
